import Mathlib

/-!
Shallow embedding of the school-records backend (src/server.js) and proofs
about the claims its specification makes.  Pure request/response logic is
embedded as Lean functions; the outcome of each database round-trip is an
explicit `Except` parameter, so every exit path of a handler is a branch of
the corresponding Lean definition.
-/

/-! ## File intake (multer configuration, src/server.js lines 53-79) -/

/-- The multer file object as seen by the fileFilter and the storage engine:
the client-supplied original name, the declared content type, and the byte
size of the payload. -/
structure UploadFile where
  originalname : String
  mimetype : String
  size : Nat
deriving DecidableEq

/-- Helper for the model of path.extname: the suffix of the character list
starting at the LAST dot, or none when no dot occurs. -/
def lastDotSuffix : List Char → Option (List Char)
  | [] => none
  | c :: cs =>
      match lastDotSuffix cs with
      | some r => some r
      | none => if c = '.' then some (c :: cs) else none

/-- Model of Node path.extname applied to a plain basename (upload original
names contain no directory separator): the substring from the last dot to the
end, and the empty string when there is no dot or the only dot is the leading
character of the name.  Matches Node for every name that has a character
other than a dot. -/
def extname (s : String) : String :=
  match s.data with
  | [] => ""
  | _ :: cs =>
      match lastDotSuffix cs with
      | some r => String.mk r
      | none => ""

/-- ASCII lowercasing of one character, as JavaScript toLowerCase acts on the
ASCII range that file extensions use. -/
def lowerChar (c : Char) : Char :=
  if 'A' ≤ c ∧ c ≤ 'Z' then Char.ofNat (c.toNat + 32) else c

/-- Model of JavaScript String.prototype.toLowerCase restricted to ASCII. -/
def strLower (s : String) : String :=
  String.mk (s.data.map lowerChar)

/-- Whether the token is an initial segment of the list. -/
def leadMatch : List Char → List Char → Bool
  | [], _ => true
  | _ :: _, [] => false
  | a :: as, b :: bs => a = b && leadMatch as bs

/-- Whether the token occurs contiguously anywhere in the list. -/
def hasSub (tok : List Char) : List Char → Bool
  | [] => leadMatch tok []
  | c :: cs => leadMatch tok (c :: cs) || hasSub tok cs

/-- String form of `hasSub`. -/
def hasSubStr (tok s : String) : Bool :=
  hasSub tok.data s.data

/-- Model of the JavaScript regular expression test
`/jpeg|jpg|png|gif/.test(s)`: true exactly when one of the four literal
tokens occurs somewhere in the string (src/server.js line 67). -/
def regexTest (s : String) : Bool :=
  hasSubStr "jpeg" s || hasSubStr "jpg" s || hasSubStr "png" s || hasSubStr "gif" s

/-- The fileFilter of the multer configuration (src/server.js lines 66-78):
accept exactly when the regular expression matches both the lowercased
extension of the original name and the declared content type; otherwise the
filter signals `Error("Only image files are allowed")`. -/
def fileFilter (f : UploadFile) : Bool :=
  regexTest (strLower (extname f.originalname)) && regexTest f.mimetype

/-- The configured upload size ceiling in bytes (src/server.js line 65). -/
def fileSizeLimit : Nat := 5 * 1024 * 1024

/-- The generated stored filename (src/server.js lines 57-60):
`school-<timestamp>-<random integer><original extension>`. -/
def uploadFilename (now rand : Nat) (orig : String) : String :=
  "school-" ++ toString now ++ "-" ++ toString rand ++ extname orig

/-- Outcome of the upload middleware for one request. -/
inductive UploadOutcome where
  | noFile
  | accepted (storedName : String)
  | typeRejected
  | sizeRejected
deriving DecidableEq

/-- Model of the configured `upload.single("image")` middleware
(src/server.js lines 63-79): with no file the request passes through; an
arriving file is first offered to the fileFilter (a rejection surfaces the
plain filter error), and an accepted stream is counted against the size
limit (an overflow surfaces a MulterError with code LIMIT_FILE_SIZE).
In either error case the route handler never runs. -/
def multerSingle (now rand : Nat) (file : Option UploadFile) : UploadOutcome :=
  match file with
  | none => UploadOutcome.noFile
  | some f =>
      if fileFilter f then
        if f.size > fileSizeLimit then UploadOutcome.sizeRejected
        else UploadOutcome.accepted (uploadFilename now rand f.originalname)
      else UploadOutcome.typeRejected

/-! ## Global error handler (src/server.js lines 208-222) -/

/-- An error reaching the final express error middleware: either a
MulterError carrying its code and message, or any other Error carrying only
a message (the fileFilter rejection is of the second kind). -/
inductive AppErr where
  | multerErr (code msg : String)
  | plainErr (msg : String)
deriving DecidableEq

/-- Response produced by the error middleware. -/
structure ErrResponse where
  status : Nat
  success : Bool
  message : String
deriving DecidableEq

/-- The global error handler (src/server.js lines 208-222): a MulterError
with code LIMIT_FILE_SIZE gets status 400 and the fixed file-too-large
message; every other error, MulterError or not, falls through to status 500
with the message of the error. -/
def errorHandler : AppErr → ErrResponse
  | AppErr.multerErr code msg =>
      if code = "LIMIT_FILE_SIZE" then
        ⟨400, false, "File too large. Maximum size is 5MB."⟩
      else ⟨500, false, msg⟩
  | AppErr.plainErr msg => ⟨500, false, msg⟩

/-! ## Data model (schools table, src/server.js lines 88-99) -/

/-- One row of the schools table, in schema column order. -/
structure SchoolRow where
  id : Nat
  name : String
  address : String
  city : String
  state : String
  contact : Int
  image : Option String
  email_id : String
  created_at : Nat
deriving DecidableEq

/-- The textual form fields of a create request (req.body). -/
structure CreateFields where
  name : String
  address : String
  city : String
  state : String
  contact : Int
  email_id : String
deriving DecidableEq

/-! ## Image URL rewriting (src/server.js lines 156-160 and 192-194) -/

/-- The rewriting `row.image ? baseUrl + row.image : null`.  JavaScript
truthiness makes both null and the empty string take the null branch; a
non-empty stored string is prefixed with the base URL of the request. -/
def rewriteImage (baseUrl : String) (img : Option String) : Option String :=
  match img with
  | none => none
  | some s => if s = "" then none else some (baseUrl ++ s)

/-- The per-row mapping used by both read endpoints: copy every column and
replace image by its rewritten form (object spread at lines 157-160,
assignment at line 194). -/
def rewriteRow (baseUrl : String) (row : SchoolRow) : SchoolRow :=
  { row with image := rewriteImage baseUrl row.image }

/-! ## POST /api/schools (src/server.js lines 115-143) -/

/-- Result of one run of the create endpoint: HTTP status, success flag,
message, the table after the request, and whether connection.release() was
reached. -/
structure CreateResult where
  status : Nat
  success : Bool
  message : String
  table : List SchoolRow
  released : Bool
deriving DecidableEq

/-- Body of the POST /api/schools route handler (src/server.js lines
115-143), entered only when the upload middleware passed.  `image` is the
value `req.file ? "/schoolImages/" + req.file.filename : null`.  `db` is the
outcome of connection.execute of the INSERT: on success it carries the
assigned id and the created_at timestamp the database fills in.  release()
is executed only after a successful execute; the catch branch answers 500
without reaching it. -/
def postSchoolsBody (table : List SchoolRow) (fields : CreateFields)
    (image : Option String) (db : Except String (Nat × Nat)) : CreateResult :=
  match db with
  | Except.error _ => ⟨500, false, "Failed to add school", table, false⟩
  | Except.ok (insertId, ts) =>
      ⟨201, true, "School added successfully",
        table ++ [⟨insertId, fields.name, fields.address, fields.city, fields.state,
          fields.contact, image, fields.email_id, ts⟩], true⟩

/-- The whole create endpoint: upload middleware, then route handler, with
errors of the middleware routed to the global error handler (the handler
body and the INSERT are skipped, so the table is unchanged). -/
def createSchool (table : List SchoolRow) (now rand : Nat) (file : Option UploadFile)
    (fields : CreateFields) (db : Except String (Nat × Nat)) : CreateResult :=
  match multerSingle now rand file with
  | UploadOutcome.typeRejected =>
      let resp := errorHandler (AppErr.plainErr "Only image files are allowed")
      ⟨resp.status, resp.success, resp.message, table, false⟩
  | UploadOutcome.sizeRejected =>
      let resp := errorHandler (AppErr.multerErr "LIMIT_FILE_SIZE" "File too large")
      ⟨resp.status, resp.success, resp.message, table, false⟩
  | UploadOutcome.noFile => postSchoolsBody table fields none db
  | UploadOutcome.accepted storedName =>
      postSchoolsBody table fields (some ("/schoolImages/" ++ storedName)) db

/-! ## GET /api/schools (src/server.js lines 146-171) -/

/-- Comparison used to model ORDER BY created_at DESC. -/
def rowLe (a b : SchoolRow) : Bool :=
  decide (b.created_at ≤ a.created_at)

/-- Meaning of the SQL statement at lines 150-151: every row of the table,
ordered by created_at descending (ties in an unspecified order, here the
stable merge sort order). -/
def selectAllOrdered (table : List SchoolRow) : List SchoolRow :=
  table.mergeSort rowLe

/-- Result of one run of the list endpoint. -/
structure ListResult where
  status : Nat
  success : Bool
  schools : List SchoolRow
  message : Option String
  released : Bool
deriving DecidableEq

/-- The GET /api/schools route handler (src/server.js lines 146-171): on a
successful query, release the connection and answer 200 with every returned
row passed through `rewriteRow`; on a failed query the catch branch answers
500 without releasing. -/
def getSchoolsHandler (baseUrl : String) (db : Except String (List SchoolRow)) : ListResult :=
  match db with
  | Except.error _ => ⟨500, false, [], some "Failed to fetch schools", false⟩
  | Except.ok rows => ⟨200, true, rows.map (rewriteRow baseUrl), none, true⟩

/-- The list endpoint against a table whose query succeeds. -/
def listSchools (baseUrl : String) (table : List SchoolRow) : List SchoolRow :=
  (getSchoolsHandler baseUrl (Except.ok (selectAllOrdered table))).schools

/-! ## GET /api/schools/:id (src/server.js lines 174-205) -/

/-- Meaning of the SQL statement at lines 179-181: the rows whose id equals
the requested id. -/
def selectById (table : List SchoolRow) (id : Nat) : List SchoolRow :=
  table.filter (fun r => r.id == id)

/-- Result of one run of the get-by-id endpoint. -/
structure GetResult where
  status : Nat
  success : Bool
  school : Option SchoolRow
  message : Option String
  released : Bool
deriving DecidableEq

/-- The GET /api/schools/:id route handler (src/server.js lines 174-205):
on a successful query the connection is released first; then zero rows give
404 with the not-found message, and a first row is rewritten and answered
with 200.  A failed query reaches the catch branch: 500, no release. -/
def getSchoolByIdHandler (baseUrl : String) (db : Except String (List SchoolRow)) : GetResult :=
  match db with
  | Except.error _ => ⟨500, false, none, some "Failed to fetch school", false⟩
  | Except.ok rows =>
      match rows with
      | [] => ⟨404, false, none, some "School not found", true⟩
      | r :: _ => ⟨200, true, some (rewriteRow baseUrl r), none, true⟩

/-- The get-by-id endpoint against a table whose query succeeds. -/
def getSchoolById (baseUrl : String) (table : List SchoolRow) (id : Nat) : GetResult :=
  getSchoolByIdHandler baseUrl (Except.ok (selectById table id))

/-! ## Bootstrap (src/server.js lines 84-108 and 227-231) -/

/-- Observable outcome of one run of the schema-initialization function:
whether its promise fulfilled, whether the catch branch logged an error, and
whether connection.release() was reached. -/
structure InitRun where
  fulfilled : Bool
  loggedError : Bool
  released : Bool
deriving DecidableEq

/-- The schema-initialization function (src/server.js lines 84-108), with
the outcomes of pool.getConnection() and of connection.execute(CREATE TABLE)
as parameters.  Its try/catch swallows every error: the catch branch only
logs, so the async function always fulfills; release() is reached only when
both steps succeed. -/
def initDatabase (acquire createTable : Except String Unit) : InitRun :=
  match acquire with
  | Except.error _ => ⟨true, true, false⟩
  | Except.ok _ =>
      match createTable with
      | Except.error _ => ⟨true, true, false⟩
      | Except.ok _ => ⟨true, false, true⟩

/-- The bootstrap at src/server.js lines 227-231: app.listen runs in the
then-callback, which executes exactly when the initialization promise
fulfilled. -/
def serverListens (acquire createTable : Except String Unit) : Bool :=
  (initDatabase acquire createTable).fulfilled

/-! ## Filesystem paths (src/server.js lines 44-48 and 53-61) -/

/-- A filesystem path as its list of segments; joining paths appends
segment lists and a trailing separator contributes no segment. -/
def schoolImagesSegs : List String := ["public", "schoolImages"]

/-- The directory the startup existence-check creates (line 45):
path.join(__dirname, "public/schoolImages"), i.e. relative to the directory
of the module file. -/
def imagesDir (dirname : List String) : List String :=
  dirname ++ schoolImagesSegs

/-- The multer destination (line 55): the relative path
"public/schoolImages/", which the filesystem resolves against the current
working directory of the process. -/
def uploadDest (cwd : List String) : List String :=
  cwd ++ schoolImagesSegs

/-! ## Spec-side predicates -/

/-- The allow-list of the specification. -/
def allowList : List String := ["jpeg", "jpg", "png", "gif"]

/-- Modelled from the words of the specification, for comparison with the
code in claim C4: the extension belongs to the allow-list (read with or
without the leading dot). -/
def extAllowed (f : UploadFile) : Prop :=
  strLower (extname f.originalname) ∈ allowList ∨
    strLower (extname f.originalname) ∈ [".jpeg", ".jpg", ".png", ".gif"]

/-- Modelled from the words of the specification, for comparison with the
code in claim C4: the declared content type belongs to the allow-list (read
literally or as the subtype of an image content type). -/
def mimeAllowed (f : UploadFile) : Prop :=
  f.mimetype ∈ allowList ∨ ∃ t ∈ allowList, f.mimetype = "image/" ++ t

/-- Modelled from the words of the specification: a file is admissible when
both its extension and its declared content type are in the allow-list. -/
def specAccepts (f : UploadFile) : Prop :=
  extAllowed f ∧ mimeAllowed f

/-- A stored image value the create endpoint can produce: null, or a
relative path under the fixed image URL subpath. -/
def createdImage (img : Option String) : Prop :=
  img = none ∨ ∃ f, img = some ("/schoolImages/" ++ f)

/-! ## Concrete sample inputs -/

/-- A text file submitted under the image field. -/
def txtFile : UploadFile := ⟨"notes.txt", "text/plain", 10⟩

/-- A file whose extension is outside the allow-list yet contains an
allow-list token as a substring. -/
def jpngFile : UploadFile := ⟨"a.jpng", "image/png", 1000⟩

/-- A well-formed png upload of six mebibytes. -/
def bigPng : UploadFile := ⟨"big.png", "image/png", 6 * 1024 * 1024⟩

/-- A text file of six mebibytes submitted under the image field. -/
def bigTxt : UploadFile := ⟨"dump.txt", "text/plain", 6 * 1024 * 1024⟩

/-- Sample form fields. -/
def sampleFields : CreateFields := ⟨"Alpha", "1 Main St", "Pune", "MH", 9876543210, "a@b.c"⟩

/-- A sample stored row with an image. -/
def sampleRow : SchoolRow :=
  ⟨1, "Alpha", "1 Main St", "Pune", "MH", 9876543210,
    some "/schoolImages/a.png", "a@b.c", 100⟩

/-- A one-row sample table. -/
def sampleTable : List SchoolRow := [sampleRow]

/-! ## Helper lemmas -/

/-- A stored image path produced by the create endpoint is never the empty
string. -/
theorem schoolImages_ne_empty (f : String) : ("/schoolImages/" ++ f) ≠ "" := by
  intro h
  have h2 := congrArg String.length h
  rw [String.length_append] at h2
  have h3 : ("/schoolImages/" : String).length = 14 := rfl
  have h4 : ("" : String).length = 0 := rfl
  omega

/-- Every record returned by the list endpoint is the rewriting of some row
of the table. -/
theorem mem_listSchools_ex (baseUrl : String) (table : List SchoolRow) (r : SchoolRow)
    (h : r ∈ listSchools baseUrl table) : ∃ r0 ∈ table, r = rewriteRow baseUrl r0 := by
  have h2 : r ∈ (table.mergeSort rowLe).map (rewriteRow baseUrl) := h
  rcases List.mem_map.mp h2 with ⟨r0, hr0, hr⟩
  exact ⟨r0, List.mem_mergeSort.mp hr0, hr.symm⟩

/-- Every record returned by the get-by-id endpoint is the rewriting of
some row of the table. -/
theorem getById_found_ex (baseUrl : String) (table : List SchoolRow) (id : Nat) (r : SchoolRow)
    (h : (getSchoolById baseUrl table id).school = some r) :
    ∃ r0 ∈ table, r = rewriteRow baseUrl r0 := by
  cases hsel : selectById table id with
  | nil => simp [getSchoolById, getSchoolByIdHandler, hsel] at h
  | cons r0 rest =>
      simp only [getSchoolById, getSchoolByIdHandler, hsel, Option.some.injEq] at h
      refine ⟨r0, ?_, h.symm⟩
      have hmem : r0 ∈ List.filter (fun x => x.id == id) table := by
        have hm : r0 ∈ selectById table id := by
          rw [hsel]; exact List.mem_cons_self r0 rest
        exact hm
      exact List.mem_of_mem_filter hmem

/-- The image rewriting on a stored value the create endpoint can produce:
null stays null and a stored path gets the base URL prepended. -/
theorem rewriteRow_created (baseUrl : String) (r0 : SchoolRow) (h : createdImage r0.image) :
    (r0.image = none ∧ (rewriteRow baseUrl r0).image = none) ∨
    ∃ s, r0.image = some s ∧ (rewriteRow baseUrl r0).image = some (baseUrl ++ s) := by
  rcases h with hnone | ⟨f, hf⟩
  · exact Or.inl ⟨hnone, by simp [rewriteRow, rewriteImage, hnone]⟩
  · exact Or.inr ⟨"/schoolImages/" ++ f, hf,
      by simp [rewriteRow, rewriteImage, hf, schoolImages_ne_empty f]⟩

/-! ## Claims -/

/-- C1 counterexample: a create request with a text file under the image
field is answered with status 500, not a 400-class status, because the
filter rejection is a plain Error and the global error handler maps only
the MulterError size-limit code to 400; the table stays unchanged. -/
theorem c1_counterexample :
    (createSchool sampleTable 1 2 (some txtFile) sampleFields (Except.ok (9, 999))).status = 500 ∧
    ¬(400 ≤ (createSchool sampleTable 1 2 (some txtFile) sampleFields
        (Except.ok (9, 999))).status ∧
      (createSchool sampleTable 1 2 (some txtFile) sampleFields (Except.ok (9, 999))).status < 500) ∧
    (createSchool sampleTable 1 2 (some txtFile) sampleFields (Except.ok (9, 999))).table =
      sampleTable := by
  decide

/-- C1 amended: a create request whose uploaded file is rejected by the type
validation is answered with status 500 and the filter message, and no row is
inserted into the schools table. -/
theorem c1_amended (table : List SchoolRow) (now rand : Nat) (f : UploadFile)
    (fields : CreateFields) (db : Except String (Nat × Nat))
    (h : fileFilter f = false) :
    (createSchool table now rand (some f) fields db).status = 500 ∧
    (createSchool table now rand (some f) fields db).success = false ∧
    (createSchool table now rand (some f) fields db).message = "Only image files are allowed" ∧
    (createSchool table now rand (some f) fields db).table = table := by
  simp [createSchool, multerSingle, h, errorHandler]

/-- C1 witness: the amended statement at a concrete text file. -/
theorem c1_witness :
    fileFilter txtFile = false ∧
    ((createSchool sampleTable 1 2 (some txtFile) sampleFields (Except.ok (9, 999))).status = 500 ∧
     (createSchool sampleTable 1 2 (some txtFile) sampleFields (Except.ok (9, 999))).success =
       false ∧
     (createSchool sampleTable 1 2 (some txtFile) sampleFields (Except.ok (9, 999))).message =
       "Only image files are allowed" ∧
     (createSchool sampleTable 1 2 (some txtFile) sampleFields (Except.ok (9, 999))).table =
       sampleTable) :=
  ⟨by decide, c1_amended sampleTable 1 2 txtFile sampleFields (Except.ok (9, 999)) (by decide)⟩

/-- C2 counterexample: when the INSERT statement fails, the create handler
answers 500 from its catch branch without reaching connection.release(), so
the connection acquired from the pool is not released on that exit path. -/
theorem c2_counterexample :
    (postSchoolsBody sampleTable sampleFields none
      (Except.error "ER_BAD_NULL_ERROR")).released = false := by
  decide

/-- C2 amended: each handler releases its pooled connection exactly when its
single statement succeeds (including the zero-rows path of get-by-id); when
the statement fails, the handler answers 500 without releasing. -/
theorem c2_amended (table : List SchoolRow) (fields : CreateFields) (image : Option String)
    (db1 : Except String (Nat × Nat)) (baseUrl : String)
    (db2 db3 : Except String (List SchoolRow)) :
    ((postSchoolsBody table fields image db1).released = true ↔ ∃ v, db1 = Except.ok v) ∧
    ((getSchoolsHandler baseUrl db2).released = true ↔ ∃ v, db2 = Except.ok v) ∧
    ((getSchoolByIdHandler baseUrl db3).released = true ↔ ∃ v, db3 = Except.ok v) := by
  refine ⟨?_, ?_, ?_⟩
  · cases db1 with
    | error e => simp [postSchoolsBody]
    | ok v =>
        obtain ⟨a, b⟩ := v
        simp [postSchoolsBody]
  · cases db2 <;> simp [getSchoolsHandler]
  · cases db3 with
    | error e => simp [getSchoolByIdHandler]
    | ok rows => cases rows <;> simp [getSchoolByIdHandler]

/-- C3 counterexample: when the CREATE TABLE step fails, the bootstrap still
reaches app.listen, because initializeDatabase swallows the error in its
catch branch (which only logs) and its promise fulfills. -/
theorem c3_counterexample :
    serverListens (Except.ok ()) (Except.error "ER_ACCESS_DENIED_ERROR") = true ∧
    (initDatabase (Except.ok ()) (Except.error "ER_ACCESS_DENIED_ERROR")).loggedError = true :=
  ⟨rfl, rfl⟩

/-- C3 amended: listening begins regardless of the outcome of schema
initialization; a failed acquisition or CREATE TABLE is only logged. -/
theorem c3_amended (acquire createTable : Except String Unit) :
    serverListens acquire createTable = true ∧
    ((initDatabase acquire createTable).loggedError = false ↔
      acquire = Except.ok () ∧ createTable = Except.ok ()) := by
  cases acquire with
  | error m => simp [serverListens, initDatabase]
  | ok u =>
      cases u
      cases createTable with
      | error m => simp [serverListens, initDatabase]
      | ok u2 =>
          cases u2
          simp [serverListens, initDatabase]

/-- C4 counterexample: a file named a.jpng with content type image/png is
accepted by the fileFilter although its extension is outside the allow-list,
because the regular expression test is a substring containment test. -/
theorem c4_counterexample :
    fileFilter jpngFile = true ∧ ¬ specAccepts jpngFile := by
  refine ⟨by decide, ?_⟩
  unfold specAccepts extAllowed mimeAllowed
  decide

/-- C4 amended: a file is accepted exactly when the lowercased extension of
its original name contains one of the allow-list tokens as a substring and
its declared content type contains one of the allow-list tokens as a
substring. -/
theorem c4_amended (f : UploadFile) :
    fileFilter f = true ↔
      ((∃ t ∈ allowList, hasSubStr t (strLower (extname f.originalname)) = true) ∧
       (∃ t ∈ allowList, hasSubStr t f.mimetype = true)) := by
  have e1 : ∀ s : String, regexTest s = true → ∃ t ∈ allowList, hasSubStr t s = true := by
    intro s hs
    simp only [regexTest, Bool.or_eq_true] at hs
    rcases hs with ((h | h) | h) | h
    · exact ⟨"jpeg", by simp [allowList], h⟩
    · exact ⟨"jpg", by simp [allowList], h⟩
    · exact ⟨"png", by simp [allowList], h⟩
    · exact ⟨"gif", by simp [allowList], h⟩
  have e2 : ∀ s t : String, t ∈ allowList → hasSubStr t s = true → regexTest s = true := by
    intro s t ht hs
    simp only [allowList, List.mem_cons, List.not_mem_nil, or_false] at ht
    simp only [regexTest, Bool.or_eq_true]
    rcases ht with rfl | rfl | rfl | rfl <;> simp [hs]
  constructor
  · intro h
    simp only [fileFilter, Bool.and_eq_true] at h
    exact ⟨e1 _ h.1, e1 _ h.2⟩
  · rintro ⟨⟨t1, ht1, hs1⟩, ⟨t2, ht2, hs2⟩⟩
    simp only [fileFilter, Bool.and_eq_true]
    exact ⟨e2 _ _ ht1 hs1, e2 _ _ ht2 hs2⟩

/-- C5 counterexample: with the module directory and the working directory
of the process different, the directory created by the startup existence
check differs from the directory multer writes uploads to. -/
theorem c5_counterexample :
    imagesDir ["app", "backend"] ≠ uploadDest ["deploy"] := by
  decide

/-- C5 amended: the startup check creates the images directory under the
directory of the module file, while multer resolves its relative destination
against the working directory of the process; the two coincide exactly when
those base directories are equal. -/
theorem c5_amended (dirname cwd : List String) :
    imagesDir dirname = uploadDest cwd ↔ dirname = cwd := by
  constructor
  · intro h
    have h2 : dirname ++ schoolImagesSegs = cwd ++ schoolImagesSegs := h
    exact List.append_left_injective schoolImagesSegs h2
  · intro h
    rw [imagesDir, uploadDest, h]

/-- C6: for every record returned by the list endpoint and by the get-by-id
endpoint over a table whose stored images were produced by the create
endpoint, a non-null stored image path is rewritten to the base URL of the
request followed by the stored relative path, and a null stored image is
returned as null. -/
theorem c6_image_url (baseUrl : String) (table : List SchoolRow)
    (h : ∀ r ∈ table, createdImage r.image) :
    (∀ r ∈ listSchools baseUrl table, ∃ r0 ∈ table,
        (r0.image = none ∧ r.image = none) ∨
        ∃ s, r0.image = some s ∧ r.image = some (baseUrl ++ s)) ∧
    (∀ id r, (getSchoolById baseUrl table id).school = some r → ∃ r0 ∈ table,
        (r0.image = none ∧ r.image = none) ∨
        ∃ s, r0.image = some s ∧ r.image = some (baseUrl ++ s)) := by
  constructor
  · intro r hr
    rcases mem_listSchools_ex baseUrl table r hr with ⟨r0, hr0, rfl⟩
    exact ⟨r0, hr0, rewriteRow_created baseUrl r0 (h r0 hr0)⟩
  · intro id r hr
    rcases getById_found_ex baseUrl table id r hr with ⟨r0, hr0, rfl⟩
    exact ⟨r0, hr0, rewriteRow_created baseUrl r0 (h r0 hr0)⟩

/-- C6 witness: the rewriting at a concrete table and request host. -/
theorem c6_witness :
    ∃ r0 ∈ sampleTable,
      (r0.image = none ∧ (rewriteRow "http://h" sampleRow).image = none) ∨
      ∃ s, r0.image = some s ∧
        (rewriteRow "http://h" sampleRow).image = some ("http://h" ++ s) :=
  (c6_image_url "http://h" sampleTable
      (by
        intro r hr
        have hr2 : r = sampleRow := by simpa [sampleTable] using hr
        subst hr2
        exact Or.inr ⟨"a.png", rfl⟩)).1
    (rewriteRow "http://h" sampleRow)
    (by simp [listSchools, getSchoolsHandler, selectAllOrdered, sampleTable])

/-- C7: the list endpoint returns exactly the rewritten rows of the schools
table, ordered by creation time with the most recent first. -/
theorem c7_list_ordered (baseUrl : String) (table : List SchoolRow) :
    (listSchools baseUrl table).Perm (table.map (rewriteRow baseUrl)) ∧
    (listSchools baseUrl table).Pairwise (fun a b => b.created_at ≤ a.created_at) := by
  have hperm : (table.mergeSort rowLe).Perm table := List.mergeSort_perm table rowLe
  constructor
  · show ((selectAllOrdered table).map (rewriteRow baseUrl)).Perm (table.map (rewriteRow baseUrl))
    exact hperm.map (rewriteRow baseUrl)
  · show ((selectAllOrdered table).map
      (rewriteRow baseUrl)).Pairwise (fun a b => b.created_at ≤ a.created_at)
    have hsorted : (table.mergeSort rowLe).Pairwise (fun a b => rowLe a b = true) := by
      apply List.sorted_mergeSort
      · intro a b c hab hbc
        simp only [rowLe, decide_eq_true_eq] at hab hbc ⊢
        omega
      · intro a b
        simp only [rowLe, Bool.or_eq_true, decide_eq_true_eq]
        omega
    refine List.Pairwise.map _ ?_ hsorted
    intro a b hab
    simp only [rowLe, decide_eq_true_eq] at hab
    simpa [rewriteRow] using hab

/-- C8: a get-by-id request whose id matches no row of the table is answered
with the not-found signal, status 404 with success false and a message,
which is distinct from the server-error status 500. -/
theorem c8_not_found (baseUrl : String) (table : List SchoolRow) (id : Nat)
    (h : ∀ r ∈ table, r.id ≠ id) :
    (getSchoolById baseUrl table id).status = 404 ∧
    (getSchoolById baseUrl table id).success = false ∧
    (getSchoolById baseUrl table id).message = some "School not found" ∧
    (getSchoolById baseUrl table id).status ≠ 500 := by
  have hsel : selectById table id = [] := by
    simp only [selectById, List.filter_eq_nil_iff]
    intro a ha
    simp only [beq_iff_eq]
    exact h a ha
  simp [getSchoolById, getSchoolByIdHandler, hsel]

/-- C8 witness: the not-found response at a concrete table and a fresh id. -/
theorem c8_witness :
    (getSchoolById "http://h" sampleTable 999).status = 404 ∧
    (getSchoolById "http://h" sampleTable 999).success = false ∧
    (getSchoolById "http://h" sampleTable 999).message = some "School not found" ∧
    (getSchoolById "http://h" sampleTable 999).status ≠ 500 :=
  c8_not_found "http://h" sampleTable 999 (by decide)

/-- C9 counterexample: an uploaded text file exceeding the size ceiling is
in the scope of the claim, yet it is rejected by the type filter, which
sees the file header before any byte of the stream is counted against the
limit; the response is therefore 500 with the filter message, not 400 with
the file-too-large message.  The table stays unchanged. -/
theorem c9_counterexample :
    bigTxt.size > fileSizeLimit ∧
    (createSchool sampleTable 3 4 (some bigTxt) sampleFields (Except.ok (7, 700))).status = 500 ∧
    (createSchool sampleTable 3 4 (some bigTxt) sampleFields (Except.ok (7, 700))).status ≠ 400 ∧
    (createSchool sampleTable 3 4 (some bigTxt) sampleFields (Except.ok (7, 700))).message ≠
      "File too large. Maximum size is 5MB." ∧
    (createSchool sampleTable 3 4 (some bigTxt) sampleFields (Except.ok (7, 700))).table =
      sampleTable := by
  decide

/-- C9 amended: an uploaded file that passes the type filter but exceeds the
five mebibyte ceiling is rejected by the upload middleware; the error
handler answers status 400 with the file-too-large message and no row is
inserted into the schools table. -/
theorem c9_too_large (table : List SchoolRow) (now rand : Nat) (f : UploadFile)
    (fields : CreateFields) (db : Except String (Nat × Nat))
    (h1 : fileFilter f = true) (h2 : f.size > fileSizeLimit) :
    (createSchool table now rand (some f) fields db).status = 400 ∧
    (createSchool table now rand (some f) fields db).success = false ∧
    (createSchool table now rand (some f) fields db).message =
      "File too large. Maximum size is 5MB." ∧
    (createSchool table now rand (some f) fields db).table = table := by
  simp [createSchool, multerSingle, h1, h2, errorHandler]

/-- C9 witness: the size rejection at a concrete six mebibyte png upload. -/
theorem c9_witness :
    fileFilter bigPng = true ∧ bigPng.size > fileSizeLimit ∧
    ((createSchool sampleTable 3 4 (some bigPng) sampleFields (Except.ok (7, 700))).status = 400 ∧
     (createSchool sampleTable 3 4 (some bigPng) sampleFields (Except.ok (7, 700))).success =
       false ∧
     (createSchool sampleTable 3 4 (some bigPng) sampleFields (Except.ok (7, 700))).message =
       "File too large. Maximum size is 5MB." ∧
     (createSchool sampleTable 3 4 (some bigPng) sampleFields (Except.ok (7, 700))).table =
       sampleTable) :=
  ⟨by decide, by decide,
    c9_too_large sampleTable 3 4 bigPng sampleFields (Except.ok (7, 700)) (by decide) (by decide)⟩

/-- C10: every record returned by the list endpoint and by the get-by-id
endpoint agrees with a row of the table on every column other than image,
and its image is exactly the rewritten image of that row. -/
theorem c10_frame (baseUrl : String) (table : List SchoolRow) :
    (∀ r ∈ listSchools baseUrl table, ∃ r0 ∈ table,
        r.id = r0.id ∧ r.name = r0.name ∧ r.address = r0.address ∧
        r.city = r0.city ∧ r.state = r0.state ∧ r.contact = r0.contact ∧
        r.email_id = r0.email_id ∧ r.created_at = r0.created_at ∧
        r.image = rewriteImage baseUrl r0.image) ∧
    (∀ id r, (getSchoolById baseUrl table id).school = some r → ∃ r0 ∈ table,
        r.id = r0.id ∧ r.name = r0.name ∧ r.address = r0.address ∧
        r.city = r0.city ∧ r.state = r0.state ∧ r.contact = r0.contact ∧
        r.email_id = r0.email_id ∧ r.created_at = r0.created_at ∧
        r.image = rewriteImage baseUrl r0.image) := by
  constructor
  · intro r hr
    rcases mem_listSchools_ex baseUrl table r hr with ⟨r0, hr0, rfl⟩
    exact ⟨r0, hr0, rfl, rfl, rfl, rfl, rfl, rfl, rfl, rfl, rfl⟩
  · intro id r hr
    rcases getById_found_ex baseUrl table id r hr with ⟨r0, hr0, rfl⟩
    exact ⟨r0, hr0, rfl, rfl, rfl, rfl, rfl, rfl, rfl, rfl, rfl⟩

/-- C10 witness: the frame condition at a concrete table and record. -/
theorem c10_witness :
    ∃ r0 ∈ sampleTable,
      (rewriteRow "http://h" sampleRow).id = r0.id ∧
      (rewriteRow "http://h" sampleRow).name = r0.name ∧
      (rewriteRow "http://h" sampleRow).address = r0.address ∧
      (rewriteRow "http://h" sampleRow).city = r0.city ∧
      (rewriteRow "http://h" sampleRow).state = r0.state ∧
      (rewriteRow "http://h" sampleRow).contact = r0.contact ∧
      (rewriteRow "http://h" sampleRow).email_id = r0.email_id ∧
      (rewriteRow "http://h" sampleRow).created_at = r0.created_at ∧
      (rewriteRow "http://h" sampleRow).image = rewriteImage "http://h" r0.image :=
  (c10_frame "http://h" sampleTable).1 (rewriteRow "http://h" sampleRow)
    (by simp [listSchools, getSchoolsHandler, selectAllOrdered, sampleTable])
